import Mathlib

/-!
# Verification of the AI-NGFW gateway (Bishwanath34/firewall)

A shallow embedding of the request-inspection gateway.  Risks are modelled
as exact rationals (`ℚ`); JavaScript strings as Lean `String`; the two
fallible outbound calls (ML scorer, protected backend) as explicit outcome
values; the audit log as the list of entries a request appends.

Namespaces:
* `Gateway`    — `src/gateway/index.js` (the "DPI-Fixed" gateway);
* `TlsGateway` — `src/unnamed/part_002` (the TLS-only gateway variant);
* `SIEM`       — the log-export code of `src/unnamed/part_002`.
-/

set_option maxRecDepth 4000

/-- JavaScript `s.startsWith(p)`. -/
def jsStartsWith (s p : String) : Bool := p.data.isPrefixOf s.data

/-- Whether `p` occurs as a contiguous sublist of `s`. -/
def jsIncludesL (s p : List Char) : Bool :=
  match s with
  | [] => p.isEmpty
  | _ :: rest => p.isPrefixOf s || jsIncludesL rest p

/-- JavaScript `s.includes(p)` (substring containment). -/
def jsIncludes (s p : String) : Bool := jsIncludesL s.data p.data

/-- Remove the first `*` of a character list: JavaScript `d.replace("*", "")`
(with a plain-string pattern, `replace` rewrites only the first occurrence;
every RBAC table entry holds at most one `*`). -/
def stripStarL : List Char → List Char
  | [] => []
  | c :: rest => if c = '*' then rest else c :: stripStarL rest

/-- `String` version of `stripStarL`. -/
def stripStar (s : String) : String := String.mk (stripStarL s.data)

/-- One conditional accumulation step of a rule engine:
`if (cond) { risk += inc; reasons.push(tag); }`. -/
def step (acc : ℚ × List String) (cond : Bool) (inc : ℚ) (tag : String) :
    ℚ × List String :=
  if cond then (acc.1 + inc, acc.2 ++ [tag]) else acc

/-- The label thresholds shared by every variant:
`risk >= 0.7 → high_risk`, else `risk >= 0.4 → medium_risk`, else `normal`. -/
def riskLabel (risk : ℚ) : String :=
  if risk ≥ 0.7 then "high_risk" else if risk ≥ 0.4 then "medium_risk" else "normal"

/-- The ML scorer's HTTP response body `res.data`: either field may be
absent (`undefined`), modelled with `Option`. -/
structure MLResponse where
  ml_risk : Option ℚ
  ml_label : Option String
deriving DecidableEq

/-- Outcome of the outbound `axios.post` to the scorer: a parsed body, or a
thrown error (timeout, connection refused, ...). -/
inductive MLOutcome where
  | ok (data : MLResponse)
  | err (msg : String)
deriving DecidableEq

/-- What `scoreWithML` returns to the pipeline. -/
structure MLResult where
  ml_risk : ℚ
  ml_label : String
deriving DecidableEq

/-- JavaScript `v || d` for a numeric field (`0` is falsy, `undefined` is falsy). -/
def jsOrQ (v : Option ℚ) (d : ℚ) : ℚ :=
  match v with
  | none => d
  | some x => if x = 0 then d else x

/-- JavaScript `v || d` for a string field (`""` is falsy, `undefined` is falsy). -/
def jsOrStr (v : Option String) (d : String) : String :=
  match v with
  | none => d
  | some s => if s = "" then d else s

/-- `scoreWithML` (identical in `src/gateway/index.js` and both unnamed
gateway variants): on success `{ml_risk: res.data.ml_risk || 0.0,
ml_label: res.data.ml_label || "normal"}`; the `catch` branch returns
`{ml_risk: 0.0, ml_label: "normal"}` — fail open. -/
def scoreWithML : MLOutcome → MLResult
  | MLOutcome.ok data =>
      { ml_risk := jsOrQ data.ml_risk 0, ml_label := jsOrStr data.ml_label "normal" }
  | MLOutcome.err _ => { ml_risk := 0, ml_label := "normal" }

/-- Outcome of the proxied `axios` call to the protected backend: an HTTP
response (any status — `validateStatus: () => true`), or a thrown
network-level error. -/
inductive BackendOutcome where
  | ok (status : Nat) (body : String)
  | err (msg : String)
deriving DecidableEq

/-- Whether the backend call threw. -/
def BackendOutcome.isErr : BackendOutcome → Bool
  | BackendOutcome.ok _ _ => false
  | BackendOutcome.err _ => true

/-- One role's row of the RBAC table. -/
structure RoleRules where
  allow : List String
  deny : List String
deriving DecidableEq

namespace Gateway

/-- Per-source record held in the `connectionState` map of
`src/gateway/index.js`: `{ reqCount, lastReq, riskBoost }`. -/
structure ConnState where
  reqCount : Nat
  lastReq : Int
  riskBoost : ℚ
deriving DecidableEq

/-- `const MAX_REQS_PER_MIN = 100`. -/
def MAX_REQS_PER_MIN : Nat := 100

/-- `updateConnectionState` of `src/gateway/index.js` (lines 26–39), acting
on one source's record; `now` is `Date.now()`.  The source mutates in this
order: `state.reqCount++; state.lastReq = now;` and only then tests
`now - state.lastReq > 60000` before resetting `reqCount` to 1. -/
def updateConnectionState (state : ConnState) (now : Int) : ConnState :=
  let state1 : ConnState := { state with reqCount := state.reqCount + 1, lastReq := now }
  if now - state1.lastReq > 60000 then { state1 with reqCount := 1 } else state1

/-- The request context built by `buildContext` (lines 50–65). -/
structure Ctx where
  ip : String
  method : String
  path : String
  userAgent : String
  timestamp : String
  userId : String
  role : String
  reqRate : Nat
  tlsRisk : ℚ
deriving DecidableEq

/-- Result of `checkRiskRule`. -/
structure RuleDecision where
  risk : ℚ
  label : String
  reasons : List String
deriving DecidableEq

/-- `checkRiskRule` of `src/gateway/index.js` (lines 68–95): sequential
additive accumulation over five conditions, then the label thresholds. -/
def checkRiskRule (ctx : Ctx) : RuleDecision :=
  let acc0 : ℚ × List String := (0, [])
  let acc1 := step acc0 (ctx.userId == "" || ctx.userId == "anonymous") 0.2 "no_user_id"
  let acc2 := step acc1 (jsStartsWith ctx.path "/admin") 0.5 "admin_path"
  let acc3 := step acc2 (jsStartsWith ctx.path "/admin" && ctx.role == "guest") 0.3
    "guest_on_admin_path"
  let acc4 := step acc3 (jsStartsWith ctx.path "/honeypot") 0.8 "honeypot_path"
  let acc5 := step acc4 (decide (ctx.reqRate > MAX_REQS_PER_MIN)) 0.4 "rate_limit_exceeded"
  { risk := acc5.1, label := riskLabel acc5.1, reasons := acc5.2 }

/-- The row `RBAC["guest"]`. -/
def guestRules : RoleRules :=
  { allow := ["/info"], deny := ["/admin", "/admin/secret", "/admin/*"] }

/-- The `RBAC` table (lines 111–115). -/
def RBACTable : List (String × RoleRules) :=
  [("guest", guestRules),
   ("user", { allow := ["/info", "/profile"], deny := ["/admin", "/admin/*"] }),
   ("admin", { allow := ["*"], deny := [] })]

/-- `checkRBAC` of `src/gateway/index.js` (lines 117–128): unknown roles
fall back to guest; `/honeypot` prefix returns `true` before the table;
wildcard allow; then the deny loop (first match returns `false`), the allow
loop (first match returns `true`), default deny. -/
def checkRBAC (role pathReq : String) : Bool :=
  let rules := (RBACTable.lookup role).getD guestRules
  if jsStartsWith pathReq "/honeypot" then true
  else if rules.allow.contains "*" then true
  else if rules.deny.any (fun d => jsStartsWith pathReq (stripStar d)) then false
  else if rules.allow.any (fun a => jsStartsWith pathReq (stripStar a)) then true
  else false

/-- The `decision` object stored in an audit entry (line 154). -/
structure Decision where
  allow : Bool
  label : String
  rbac : Bool
  risk : ℚ
deriving DecidableEq

/-- One audit log entry (lines 151–159); the backend-error path re-pushes it
with `statusCode: 500` and an `error` message (line 188). -/
structure Entry where
  time : String
  context : Ctx
  decision : Decision
  targetPath : String
  ruleRisk : ℚ
  mlRisk : ℚ
  reasons : List String
  statusCode : Option Nat
  error : Option String
deriving DecidableEq

/-- The observable outcome of one `/fw` request: the HTTP status sent to the
caller, the `reason` field of a 403 body (if any), whether a forward to the
backend was attempted, and the entries appended to `auditLogs`. -/
structure FwResult where
  status : Nat
  blockReason : Option String
  forwarded : Bool
  newEntries : List Entry
deriving DecidableEq

/-- `finalRisk` of line 144: `Math.max(ruleDecision.risk, ml.ml_risk)`. -/
def finalRiskOf (ctx : Ctx) (mlo : MLOutcome) : ℚ :=
  max (checkRiskRule ctx).risk (scoreWithML mlo).ml_risk

/-- The audit entry built at lines 151–159.  `time` is a fresh wall-clock
timestamp, modelled by the context's timestamp; `finalLabel` (line 145) is
the ternary chain, i.e. `riskLabel`. -/
def fwEntry (ctx : Ctx) (forwardPath : String) (mlo : MLOutcome) : Entry :=
  let ruleDecision := checkRiskRule ctx
  let ml := scoreWithML mlo
  let finalRisk := max ruleDecision.risk ml.ml_risk
  let finalLabel := riskLabel finalRisk
  let rbacAllowed := checkRBAC ctx.role forwardPath
  { time := ctx.timestamp
    context := ctx
    decision :=
      { allow := rbacAllowed && decide (finalRisk < 0.95)
        label := finalLabel
        rbac := rbacAllowed
        risk := finalRisk }
    targetPath := forwardPath
    ruleRisk := ruleDecision.risk
    mlRisk := ml.ml_risk
    reasons := ruleDecision.reasons
    statusCode := none
    error := none }

/-- The `/fw` middleware of `src/gateway/index.js` (lines 136–191): run the
rule engine and the ML delegate, compute `finalRisk`, check RBAC, append the
audit entry, then either block with 403 (reason `"RBAC violation"` if RBAC
denied, else `"Critical risk"`), or forward; a thrown backend call yields a
500 and pushes a second, error-annotated copy of the entry. -/
def fwHandle (ctx : Ctx) (forwardPath : String) (mlo : MLOutcome)
    (backend : BackendOutcome) : FwResult :=
  let ruleDecision := checkRiskRule ctx
  let ml := scoreWithML mlo
  let finalRisk := max ruleDecision.risk ml.ml_risk
  let rbacAllowed := checkRBAC ctx.role forwardPath
  let entry := fwEntry ctx forwardPath mlo
  if !rbacAllowed || decide (finalRisk ≥ 0.95) then
    { status := 403
      blockReason := some (if !rbacAllowed then "RBAC violation" else "Critical risk")
      forwarded := false
      newEntries := [entry] }
  else
    match backend with
    | BackendOutcome.ok st _ =>
        { status := st, blockReason := none, forwarded := true, newEntries := [entry] }
    | BackendOutcome.err msg =>
        { status := 500, blockReason := none, forwarded := true,
          newEntries := [entry, { entry with statusCode := some 500, error := some msg }] }

end Gateway

namespace TlsGateway

/-- The request context built by `buildContext` of `src/unnamed/part_002`
(lines 26–36): no rate observation in this variant. -/
structure Ctx where
  ip : String
  method : String
  path : String
  userAgent : String
  timestamp : String
  userId : String
  role : String
deriving DecidableEq

/-- `checkRiskRule` of `src/unnamed/part_002` (lines 38–47): the same four
additive conditions as the main gateway, without the rate condition. -/
def checkRiskRule (ctx : Ctx) : Gateway.RuleDecision :=
  let acc0 : ℚ × List String := (0, [])
  let acc1 := step acc0 (ctx.userId == "" || ctx.userId == "anonymous") 0.2 "no_user_id"
  let acc2 := step acc1 (jsStartsWith ctx.path "/admin") 0.5 "admin_path"
  let acc3 := step acc2 (jsStartsWith ctx.path "/admin" && ctx.role == "guest") 0.3
    "guest_on_admin_path"
  let acc4 := step acc3 (jsStartsWith ctx.path "/honeypot") 0.8 "honeypot_path"
  { risk := acc4.1, label := riskLabel acc4.1, reasons := acc4.2 }

/-- The `RBAC` table of `src/unnamed/part_002` (lines 62–66), identical in
content to the main gateway's. -/
def RBACTable : List (String × RoleRules) :=
  [("guest", Gateway.guestRules),
   ("user", { allow := ["/info", "/profile"], deny := ["/admin", "/admin/*"] }),
   ("admin", { allow := ["*"], deny := [] })]

/-- `checkRBAC` of `src/unnamed/part_002` (lines 68–79).  Identical to the
main gateway's except for the honeypot special case, which here returns
`false` — i.e. this variant BLOCKS every `/honeypot` path via RBAC. -/
def checkRBAC (role pathReq : String) : Bool :=
  let rules := (RBACTable.lookup role).getD Gateway.guestRules
  if jsStartsWith pathReq "/honeypot" then false
  else if rules.allow.contains "*" then true
  else if rules.deny.any (fun d => jsStartsWith pathReq (stripStar d)) then false
  else if rules.allow.any (fun a => jsStartsWith pathReq (stripStar a)) then true
  else false

/-- Transport-layer signals available to `inspectAndForward`:
the `x-forwarded-proto` header, the negotiated cipher name (absent when the
socket has no `getCipher`), and the raw `user-agent` header. -/
structure TransportSignals where
  xForwardedProto : Option String
  cipherName : Option String
  userAgentHeader : Option String
deriving DecidableEq

/-- The TLS DPI rules of `inspectAndForward` (lines 91–102): `+0.3
downgrade_attempt` when the declared forwarded protocol is not `https`,
`+0.6 weak_cipher` when the cipher name contains `RC4`, `+0.4
suspicious_ua` when the user-agent contains `curl` and the role is guest. -/
def tlsRiskOf (ctx : Ctx) (t : TransportSignals) : ℚ × List String :=
  let acc0 : ℚ × List String := (0, [])
  let acc1 := step acc0 (t.xForwardedProto != some "https") 0.3 "downgrade_attempt"
  let acc2 := step acc1
    (match t.cipherName with
     | some n => jsIncludes n "RC4"
     | none => false) 0.6 "weak_cipher"
  let acc3 := step acc2
    ((match t.userAgentHeader with
      | some ua => jsIncludes ua "curl"
      | none => false) && ctx.role == "guest") 0.4 "suspicious_ua"
  acc3

/-- The decision data computed by `inspectAndForward` (lines 87–108). -/
structure InspectDecision where
  tlsRisk : ℚ
  tlsReasons : List String
  ruleRisk : ℚ
  mlRisk : ℚ
  finalRisk : ℚ
  finalLabel : String
  rbacAllowed : Bool
deriving DecidableEq

/-- The scoring-and-decision prefix of `inspectAndForward` of
`src/unnamed/part_002` (lines 87–108): TLS heuristics, rule engine, ML
delegate, then `finalRisk = Math.max(ruleDecision.risk, ml.ml_risk,
tlsRisk)` and `finalLabel` recomputed from `finalRisk`. -/
def inspectDecision (ctx : Ctx) (t : TransportSignals) (mlo : MLOutcome)
    (forwardPath : String) : InspectDecision :=
  let tls := tlsRiskOf ctx t
  let ruleDecision := checkRiskRule ctx
  let ml := scoreWithML mlo
  let finalRisk := max ruleDecision.risk (max ml.ml_risk tls.1)
  let finalLabel := riskLabel finalRisk
  let rbacAllowed := checkRBAC ctx.role forwardPath
  { tlsRisk := tls.1
    tlsReasons := tls.2
    ruleRisk := ruleDecision.risk
    mlRisk := ml.ml_risk
    finalRisk := finalRisk
    finalLabel := finalLabel
    rbacAllowed := rbacAllowed }

end TlsGateway

namespace SIEM

/-- One normalized SIEM record, as produced by `normalizeLogForSIEM` of
`src/unnamed/part_002` (lines 193–228), restricted to the sixteen fields
that `logsToCSV` serializes.  Each field is the JavaScript value handed to
`esc`: `none` models `null`/`undefined`, `some s` models any other value
already rendered by `String(v)`. -/
structure Record where
  timestamp : Option String
  event_type : Option String
  source_ip : Option String
  http_method : Option String
  url_path : Option String
  user_id : Option String
  user_role : Option String
  action : Option String
  status_code : Option String
  risk_score : Option String
  rule_risk : Option String
  ml_risk : Option String
  risk_label : Option String
  ml_label : Option String
  gateway_service : Option String
  protected_service : Option String
deriving DecidableEq

/-- `String.replace(/"/g, '""')` over the character list: every double
quote is doubled. -/
def escQuotesL : List Char → List Char
  | [] => []
  | c :: rest => if c = '"' then '"' :: '"' :: escQuotesL rest else c :: escQuotesL rest

/-- `esc` of `logsToCSV` (lines 252–256): `null`/`undefined` become `""`;
any other value is stringified, embedded quotes are doubled, and the result
is wrapped in double quotes. -/
def esc (v : Option String) : String :=
  match v with
  | none => "\"\""
  | some s => "\"" ++ String.mk (escQuotesL s.data) ++ "\""

/-- The CSV header names (lines 233–250). -/
def headers : List String :=
  ["timestamp", "event_type", "source_ip", "http_method", "url_path",
   "user_id", "user_role", "action", "status_code", "risk_score",
   "rule_risk", "ml_risk", "risk_label", "ml_label", "gateway_service",
   "protected_service"]

/-- One data row before joining: the sixteen escaped fields of an entry
(lines 258–275). -/
def rowCells (e : Record) : List String :=
  [esc e.timestamp, esc e.event_type, esc e.source_ip, esc e.http_method,
   esc e.url_path, esc e.user_id, esc e.user_role, esc e.action,
   esc e.status_code, esc e.risk_score, esc e.rule_risk, esc e.ml_risk,
   esc e.risk_label, esc e.ml_label, esc e.gateway_service,
   esc e.protected_service]

/-- `r.join(",")` for one row. -/
def rowOf (e : Record) : String := String.intercalate "," (rowCells e)

/-- `logsToCSV` (lines 230–279): the header row followed by one row per
normalized entry, joined with `"\n"`.  (`normalizeLogForSIEM` maps each
audit entry to exactly one `Record`, so rows are one per entry.) -/
def logsToCSV (logs : List Record) : String :=
  String.intercalate "\n" (String.intercalate "," headers :: logs.map rowOf)

/-- Standard CSV unquoting of one doubled-quote-escaped character list:
collapse each `""` back to `"`. -/
def unescQuotes : List Char → List Char
  | [] => []
  | [c] => [c]
  | c :: c2 :: rest =>
      if c = '"' ∧ c2 = '"' then '"' :: unescQuotes rest
      else c :: unescQuotes (c2 :: rest)

/-- Standard CSV unquoting of one quoted field: strip the surrounding
quotes, then collapse doubled quotes. -/
def csvUnquote (s : String) : String :=
  String.mk (unescQuotes ((s.data.drop 1).dropLast))

end SIEM

/-! ## Concrete sample requests used by counterexamples and witnesses -/

/-- An identified `user` requesting the RBAC-allowed path `/info`. -/
def ctxAllowed : Gateway.Ctx :=
  { ip := "10.0.0.1", method := "GET", path := "/info", userAgent := "Mozilla",
    timestamp := "2026-01-01T00:00:00Z", userId := "alice", role := "user",
    reqRate := 1, tlsRisk := 0 }

/-- The same request observed as the 101st of its window (over the
100-per-minute cap). -/
def ctxOverCap : Gateway.Ctx := { ctxAllowed with reqRate := 101 }

/-- An anonymous guest probing `/admin/secret`. -/
def ctxAnonAdmin : Gateway.Ctx :=
  { ip := "10.0.0.2", method := "GET", path := "/admin/secret", userAgent := "curl/8",
    timestamp := "2026-01-01T00:00:01Z", userId := "anonymous", role := "guest",
    reqRate := 1, tlsRisk := 0 }

/-- The anonymous guest admin probe, additionally over the rate cap: all
four non-honeypot rule conditions fire at once. -/
def ctxAnonAdminOverCap : Gateway.Ctx := { ctxAnonAdmin with reqRate := 101 }

/-! ## Helper lemmas -/

theorem step_fst (acc : ℚ × List String) (c : Bool) (i : ℚ) (t : String) :
    (step acc c i t).1 = acc.1 + (if c then i else 0) := by
  cases c <;> simp [step]

theorem step_snd (acc : ℚ × List String) (c : Bool) (i : ℚ) (t : String) :
    (step acc c i t).2 = acc.2 ++ (if c then [t] else []) := by
  cases c <;> simp [step]

theorem string_data_append (s t : String) : (s ++ t).data = s.data ++ t.data := rfl

/-- The rule risk is the order-independent sum of the increments of exactly
the satisfied conditions of the table. -/
theorem checkRiskRule_risk_eq (ctx : Gateway.Ctx) :
    (Gateway.checkRiskRule ctx).risk =
      (if ctx.userId == "" || ctx.userId == "anonymous" then (0.2 : ℚ) else 0)
      + (if jsStartsWith ctx.path "/admin" then (0.5 : ℚ) else 0)
      + (if jsStartsWith ctx.path "/admin" && ctx.role == "guest" then (0.3 : ℚ) else 0)
      + (if jsStartsWith ctx.path "/honeypot" then (0.8 : ℚ) else 0)
      + (if ctx.reqRate > Gateway.MAX_REQS_PER_MIN then (0.4 : ℚ) else 0) := by
  simp only [Gateway.checkRiskRule, step_fst, zero_add, decide_eq_true_eq]

/-- The reason tags are the concatenation of the tags of exactly the
satisfied conditions, in table order. -/
theorem checkRiskRule_reasons_eq (ctx : Gateway.Ctx) :
    (Gateway.checkRiskRule ctx).reasons =
      (if ctx.userId == "" || ctx.userId == "anonymous" then ["no_user_id"] else [])
      ++ (if jsStartsWith ctx.path "/admin" then ["admin_path"] else [])
      ++ (if jsStartsWith ctx.path "/admin" && ctx.role == "guest" then
            ["guest_on_admin_path"] else [])
      ++ (if jsStartsWith ctx.path "/honeypot" then ["honeypot_path"] else [])
      ++ (if ctx.reqRate > Gateway.MAX_REQS_PER_MIN then ["rate_limit_exceeded"] else []) := by
  simp only [Gateway.checkRiskRule, step_snd, List.nil_append, List.append_assoc,
    decide_eq_true_eq]

theorem checkRiskRule_risk_nonneg (ctx : Gateway.Ctx) :
    0 ≤ (Gateway.checkRiskRule ctx).risk := by
  rw [checkRiskRule_risk_eq]
  split_ifs <;> norm_num

/-- Unfolded form of the `/fw` middleware, by cases on the block condition
and the backend outcome. -/
theorem fwHandle_eq (ctx : Gateway.Ctx) (fp : String) (mlo : MLOutcome)
    (b : BackendOutcome) :
    Gateway.fwHandle ctx fp mlo b =
      if Gateway.checkRBAC ctx.role fp = false ∨ (0.95 : ℚ) ≤ Gateway.finalRiskOf ctx mlo then
        { status := 403
          blockReason := some (if Gateway.checkRBAC ctx.role fp = false then "RBAC violation"
            else "Critical risk")
          forwarded := false
          newEntries := [Gateway.fwEntry ctx fp mlo] }
      else
        match b with
        | BackendOutcome.ok st _ =>
            { status := st, blockReason := none, forwarded := true,
              newEntries := [Gateway.fwEntry ctx fp mlo] }
        | BackendOutcome.err msg =>
            { status := 500, blockReason := none, forwarded := true,
              newEntries := [Gateway.fwEntry ctx fp mlo,
                { Gateway.fwEntry ctx fp mlo with statusCode := some 500, error := some msg }] } := by
  unfold Gateway.fwHandle Gateway.finalRiskOf
  cases hr : Gateway.checkRBAC ctx.role fp with
  | false => simp [hr]
  | true =>
      by_cases hq : (0.95 : ℚ) ≤ max (Gateway.checkRiskRule ctx).risk (scoreWithML mlo).ml_risk
      · simp [hr, hq, ge_iff_le]
      · simp [hr, hq, ge_iff_le]

/-- The allow flag stored in every audit entry. -/
theorem fwEntry_allow (ctx : Gateway.Ctx) (fp : String) (mlo : MLOutcome) :
    (Gateway.fwEntry ctx fp mlo).decision.allow =
      (Gateway.checkRBAC ctx.role fp && decide (Gateway.finalRiskOf ctx mlo < 0.95)) := rfl

theorem unescQuotes_escQuotesL (l : List Char) :
    SIEM.unescQuotes (SIEM.escQuotesL l) = l := by
  induction l with
  | nil => rfl
  | cons c rest ih =>
    by_cases hc : c = '"'
    · subst hc
      simp [SIEM.escQuotesL, SIEM.unescQuotes, ih]
    · simp only [SIEM.escQuotesL, if_neg hc]
      cases hE : SIEM.escQuotesL rest with
      | nil =>
          have hrest : rest = [] := by
            cases rest with
            | nil => rfl
            | cons d ds =>
                by_cases hd : d = '"' <;> simp [SIEM.escQuotesL, hd] at hE
          subst hrest
          rfl
      | cons d ds =>
          have hand : ¬(c = '"' ∧ d = '"') := fun h => hc h.1
          have hstep : SIEM.unescQuotes (c :: d :: ds) = c :: SIEM.unescQuotes (d :: ds) := by
            show (if c = '"' ∧ d = '"' then '"' :: SIEM.unescQuotes ds
              else c :: SIEM.unescQuotes (d :: ds)) = c :: SIEM.unescQuotes (d :: ds)
            rw [if_neg hand]
          have ihE := ih
          rw [hE] at ihE
          rw [hstep, ihE]

/-- Serializing any string as a CSV field and unquoting it again is the
identity. -/
theorem csvUnquote_esc (s : String) : SIEM.csvUnquote (SIEM.esc (some s)) = s := by
  have h1 : (SIEM.esc (some s)).data = '"' :: (SIEM.escQuotesL s.data ++ ['"']) := by
    show (("\"" ++ String.mk (SIEM.escQuotesL s.data)) ++ "\"").data = _
    rw [string_data_append, string_data_append]
    simp
  unfold SIEM.csvUnquote
  rw [h1]
  have h2 : (('"' :: (SIEM.escQuotesL s.data ++ ['"'])).drop 1) =
      SIEM.escQuotesL s.data ++ ['"'] := rfl
  rw [h2, List.dropLast_concat, unescQuotes_escQuotesL]

/-! ## Claim theorems -/

/-- Claim C1 (code bug): the window reset of `updateConnectionState` is dead
code.  The source assigns `state.lastReq = now` BEFORE testing
`now - state.lastReq > 60000`, so the test compares `now` with itself and
never fires: for every state and time the function just increments the
count and stamps `lastReq`, and an observation 61 seconds after a window
start still yields count 101 from 100 instead of resetting to 1. -/
theorem rate_window_reset_never_fires :
    (∀ (s : Gateway.ConnState) (now : Int),
      Gateway.updateConnectionState s now =
        { reqCount := s.reqCount + 1, lastReq := now, riskBoost := s.riskBoost }) ∧
    (Gateway.updateConnectionState
        { reqCount := 100, lastReq := 0, riskBoost := 0 } 61000).reqCount = 101 := by
  constructor
  · intro s now
    simp [Gateway.updateConnectionState, sub_self,
      (by decide : ¬((60000 : ℤ) < 0))]
  · decide

/-- Claim C2 (code bug): the honeypot RBAC exemption is inverted in the TLS
gateway variant.  `checkRBAC` of `src/unnamed/part_002` returns `false` for
every `/honeypot` path — for any role, even `admin` — so there a honeypot
request is blocked by RBAC; the main gateway's `checkRBAC` returns `true`
as the claim states. -/
theorem honeypot_rbac_divergence :
    TlsGateway.checkRBAC "guest" "/honeypot/trap" = false ∧
    TlsGateway.checkRBAC "admin" "/honeypot/trap" = false ∧
    TlsGateway.checkRBAC "user" "/honeypot" = false ∧
    Gateway.checkRBAC "guest" "/honeypot/trap" = true ∧
    Gateway.checkRBAC "admin" "/honeypot/trap" = true := by decide

unseal Rat.add Rat.ofScientific in
/-- Claim C3 counterexample: an RBAC-allowed, low-risk request whose
backend call throws is answered 500 but appends TWO audit entries — the
decision entry plus an error-annotated copy — not exactly one. -/
theorem audit_double_entry_on_backend_error :
    (Gateway.fwHandle ctxAllowed "/info" (MLOutcome.err "scorer down")
        (BackendOutcome.err "ECONNREFUSED")).newEntries.length = 2 ∧
    (Gateway.fwHandle ctxAllowed "/info" (MLOutcome.err "scorer down")
        (BackendOutcome.err "ECONNREFUSED")).status = 500 := by decide

/-- Claim C3 (amended): every terminal outcome of the `/fw` pipeline
appends at least one audit entry; a blocked (403) or forwarded outcome
appends exactly one, and a backend-failure 500 appends exactly two. -/
theorem audit_entry_count_formula (ctx : Gateway.Ctx) (fp : String)
    (mlo : MLOutcome) (b : BackendOutcome) :
    (Gateway.fwHandle ctx fp mlo b).newEntries.length =
      if (Gateway.fwHandle ctx fp mlo b).forwarded && b.isErr then 2 else 1 := by
  rw [fwHandle_eq]
  by_cases hcond :
      Gateway.checkRBAC ctx.role fp = false ∨ (0.95 : ℚ) ≤ Gateway.finalRiskOf ctx mlo
  · simp [hcond]
  · cases b <;> simp [hcond, BackendOutcome.isErr]

unseal Rat.add Rat.ofScientific in
/-- Claim C4 counterexample: there is no hard 429 gate.  A request observed
as the 101st of its window (over the `MAX_REQS_PER_MIN = 100` cap) is not
answered 429: the full pipeline runs, the rate condition merely contributes
the `rate_limit_exceeded` rule reason, and the request is forwarded with
the backend's own status 200. -/
theorem rate_cap_no_429_at_101 :
    ctxOverCap.reqRate > Gateway.MAX_REQS_PER_MIN ∧
    (Gateway.fwHandle ctxOverCap "/info" (MLOutcome.err "down")
        (BackendOutcome.ok 200 "ok")).status = 200 ∧
    "rate_limit_exceeded" ∈ (Gateway.checkRiskRule ctxOverCap).reasons := by decide

/-- Claim C4 (amended): exceeding the rate cap never short-circuits the
pipeline with a gateway-generated 429.  It only adds the `0.40` /
`rate_limit_exceeded` contribution to the rule risk, after which the
response status is 403, 500, or the backend's own status. -/
theorem rate_cap_soft_only (ctx : Gateway.Ctx) (fp : String) (mlo : MLOutcome)
    (b : BackendOutcome) (h : ctx.reqRate > Gateway.MAX_REQS_PER_MIN) :
    "rate_limit_exceeded" ∈ (Gateway.checkRiskRule ctx).reasons ∧
    (Gateway.checkRiskRule ctx).risk
      = (Gateway.checkRiskRule { ctx with reqRate := 0 }).risk + 0.4 ∧
    ((Gateway.fwHandle ctx fp mlo b).status = 403 ∨
     (Gateway.fwHandle ctx fp mlo b).status = 500 ∨
     ∃ body, b = BackendOutcome.ok ((Gateway.fwHandle ctx fp mlo b).status) body) := by
  refine ⟨?_, ?_, ?_⟩
  · rw [checkRiskRule_reasons_eq]
    simp [h]
  · rw [checkRiskRule_risk_eq, checkRiskRule_risk_eq]
    simp only [h, if_true]
    norm_num
  · rw [fwHandle_eq]
    by_cases hcond :
        Gateway.checkRBAC ctx.role fp = false ∨ (0.95 : ℚ) ≤ Gateway.finalRiskOf ctx mlo
    · left
      simp [hcond]
    · cases b with
      | ok st body =>
          refine Or.inr (Or.inr ⟨body, ?_⟩)
          simp [hcond]
      | err m =>
          refine Or.inr (Or.inl ?_)
          simp [hcond]

unseal Rat.add Rat.ofScientific in
/-- Witness for `rate_cap_soft_only` at the over-cap sample request. -/
theorem rate_cap_soft_only_witness :
    "rate_limit_exceeded" ∈ (Gateway.checkRiskRule ctxOverCap).reasons ∧
    (Gateway.checkRiskRule ctxOverCap).risk
      = (Gateway.checkRiskRule { ctxOverCap with reqRate := 0 }).risk + 0.4 ∧
    ((Gateway.fwHandle ctxOverCap "/info" (MLOutcome.err "down")
        (BackendOutcome.ok 200 "ok")).status = 403 ∨
     (Gateway.fwHandle ctxOverCap "/info" (MLOutcome.err "down")
        (BackendOutcome.ok 200 "ok")).status = 500 ∨
     ∃ body, BackendOutcome.ok 200 "ok"
        = BackendOutcome.ok ((Gateway.fwHandle ctxOverCap "/info" (MLOutcome.err "down")
            (BackendOutcome.ok 200 "ok")).status) body) :=
  rate_cap_soft_only ctxOverCap "/info" (MLOutcome.err "down")
    (BackendOutcome.ok 200 "ok") (by decide)

/-- Claim C5 (confirmed): the gateway blocks exactly when RBAC denies or
`finalRisk >= 0.95`; a blocked request is answered 403 with reason
`"RBAC violation"` when RBAC denied and `"Critical risk"` otherwise, and is
never forwarded; in particular role `guest` on `/admin/secret` is
RBAC-denied and receives 403 regardless of the ML outcome. -/
theorem fw_block_mapping (ctx : Gateway.Ctx) (fp : String) (mlo : MLOutcome)
    (b : BackendOutcome) :
    ((Gateway.fwHandle ctx fp mlo b).forwarded = false ↔
      (Gateway.checkRBAC ctx.role fp = false ∨ (0.95 : ℚ) ≤ Gateway.finalRiskOf ctx mlo)) ∧
    ((Gateway.checkRBAC ctx.role fp = false ∨ (0.95 : ℚ) ≤ Gateway.finalRiskOf ctx mlo) →
      (Gateway.fwHandle ctx fp mlo b).status = 403) ∧
    (Gateway.checkRBAC ctx.role fp = false →
      (Gateway.fwHandle ctx fp mlo b).blockReason = some "RBAC violation") ∧
    (Gateway.checkRBAC ctx.role fp = true → (0.95 : ℚ) ≤ Gateway.finalRiskOf ctx mlo →
      (Gateway.fwHandle ctx fp mlo b).blockReason = some "Critical risk") ∧
    (ctx.role = "guest" → fp = "/admin/secret" →
      (Gateway.fwHandle ctx fp mlo b).status = 403 ∧
      (Gateway.fwHandle ctx fp mlo b).blockReason = some "RBAC violation" ∧
      (Gateway.fwHandle ctx fp mlo b).forwarded = false) := by
  rw [fwHandle_eq]
  by_cases hr : Gateway.checkRBAC ctx.role fp = false
  · refine ⟨?_, ?_, ?_, ?_, ?_⟩ <;> simp [hr]
  · have hrt : Gateway.checkRBAC ctx.role fp = true := by
      cases hcrb : Gateway.checkRBAC ctx.role fp
      · exact absurd hcrb hr
      · rfl
    by_cases hq : (0.95 : ℚ) ≤ Gateway.finalRiskOf ctx mlo
    · refine ⟨?_, ?_, ?_, ?_, ?_⟩ <;> simp [hr, hq]
      intro h1 h2
      rw [h1, h2] at hrt
      exact absurd hrt (by decide)
    · cases b with
      | ok st body =>
          refine ⟨?_, ?_, ?_, ?_, ?_⟩
          · simp [hr, hq]
          · intro hcond
            exact absurd hcond (by simp [hr, hq])
          · intro hfalse
            exact absurd hfalse hr
          · intro _ hq2
            exact absurd hq2 hq
          · intro h1 h2
            rw [h1, h2] at hrt
            exact absurd hrt (by decide)
      | err m =>
          refine ⟨?_, ?_, ?_, ?_, ?_⟩
          · simp [hr, hq]
          · intro hcond
            exact absurd hcond (by simp [hr, hq])
          · intro hfalse
            exact absurd hfalse hr
          · intro _ hq2
            exact absurd hq2 hq
          · intro h1 h2
            rw [h1, h2] at hrt
            exact absurd hrt (by decide)

/-- Witness for `fw_block_mapping`: the anonymous guest probing
`/admin/secret` is answered 403 with reason `"RBAC violation"` and is not
forwarded. -/
theorem fw_block_mapping_witness :
    (Gateway.fwHandle ctxAnonAdmin "/admin/secret" (MLOutcome.err "down")
        (BackendOutcome.ok 200 "ok")).status = 403 ∧
    (Gateway.fwHandle ctxAnonAdmin "/admin/secret" (MLOutcome.err "down")
        (BackendOutcome.ok 200 "ok")).blockReason = some "RBAC violation" ∧
    (Gateway.fwHandle ctxAnonAdmin "/admin/secret" (MLOutcome.err "down")
        (BackendOutcome.ok 200 "ok")).forwarded = false :=
  (fw_block_mapping ctxAnonAdmin "/admin/secret" (MLOutcome.err "down")
      (BackendOutcome.ok 200 "ok")).2.2.2.2 rfl rfl

/-- Claim C6 (confirmed): in the TLS gateway `finalRisk` is the maximum of
the rule, ML and transport contributions and `finalLabel` is recomputed
from `finalRisk` with the shared thresholds; in the main gateway the
transport contribution is inert (zero), and its two-way maximum equals the
three-way maximum with a zero transport term. -/
theorem decision_combiner_max_recomputed :
    (∀ (ctx : TlsGateway.Ctx) (t : TlsGateway.TransportSignals) (mlo : MLOutcome)
        (fp : String),
      (TlsGateway.inspectDecision ctx t mlo fp).finalRisk
          = max (TlsGateway.checkRiskRule ctx).risk
              (max (scoreWithML mlo).ml_risk (TlsGateway.tlsRiskOf ctx t).1) ∧
      (TlsGateway.inspectDecision ctx t mlo fp).finalLabel
          = riskLabel (TlsGateway.inspectDecision ctx t mlo fp).finalRisk) ∧
    (∀ (gctx : Gateway.Ctx) (mlo : MLOutcome),
      Gateway.finalRiskOf gctx mlo
        = max (Gateway.checkRiskRule gctx).risk (max (scoreWithML mlo).ml_risk 0)) := by
  constructor
  · intro ctx t mlo fp
    exact ⟨rfl, rfl⟩
  · intro gctx mlo
    unfold Gateway.finalRiskOf
    have h0 : (0 : ℚ) ≤ max (Gateway.checkRiskRule gctx).risk (scoreWithML mlo).ml_risk :=
      le_trans (checkRiskRule_risk_nonneg gctx) (le_max_left _ _)
    rw [← max_assoc]
    exact (max_eq_left h0).symm

unseal Rat.add Rat.ofScientific in
/-- Claim C7 counterexample: for the anonymous guest on `/admin/secret` the
rule risk is `1.00` as claimed, but the 403 body's reason is
`"RBAC violation"`, not `"Critical risk"`, because RBAC independently
denies guest on admin paths and the RBAC reason takes precedence. -/
theorem anon_guest_admin_reason_is_rbac :
    (Gateway.checkRiskRule ctxAnonAdmin).risk = 1 ∧
    (Gateway.fwHandle ctxAnonAdmin "/admin/secret" (MLOutcome.err "down")
        (BackendOutcome.ok 200 "ok")).blockReason = some "RBAC violation" ∧
    (Gateway.fwHandle ctxAnonAdmin "/admin/secret" (MLOutcome.err "down")
        (BackendOutcome.ok 200 "ok")).status = 403 := by decide

unseal Rat.add Rat.ofScientific in
/-- Claim C7 (amended): the rule risk is the order-independent sum of the
fixed increments of exactly the satisfied table conditions, with the tags
in table order and the label derived from the risk; the sum is not capped
(admin + guest + anonymous + over-cap yields `1.4 > 1`); and anonymous +
admin path + guest role yields `ruleRisk = 1.00`, label `high_risk` and
`finalRisk ≥ 0.95` for every ML outcome, so the request is blocked with
403 — though with reason `"RBAC violation"`, since RBAC independently
denies guest on admin paths. -/
theorem rule_risk_additive_amended :
    (∀ ctx : Gateway.Ctx,
      (Gateway.checkRiskRule ctx).risk =
        (if ctx.userId == "" || ctx.userId == "anonymous" then (0.2 : ℚ) else 0)
        + (if jsStartsWith ctx.path "/admin" then (0.5 : ℚ) else 0)
        + (if jsStartsWith ctx.path "/admin" && ctx.role == "guest" then (0.3 : ℚ) else 0)
        + (if jsStartsWith ctx.path "/honeypot" then (0.8 : ℚ) else 0)
        + (if ctx.reqRate > Gateway.MAX_REQS_PER_MIN then (0.4 : ℚ) else 0) ∧
      (Gateway.checkRiskRule ctx).label = riskLabel (Gateway.checkRiskRule ctx).risk) ∧
    ((Gateway.checkRiskRule ctxAnonAdminOverCap).risk = 1.4 ∧
     (1 : ℚ) < (Gateway.checkRiskRule ctxAnonAdminOverCap).risk) ∧
    ((Gateway.checkRiskRule ctxAnonAdmin).risk = 1 ∧
     (Gateway.checkRiskRule ctxAnonAdmin).label = "high_risk" ∧
     ∀ (mlo : MLOutcome) (b : BackendOutcome),
       (0.95 : ℚ) ≤ Gateway.finalRiskOf ctxAnonAdmin mlo ∧
       (Gateway.fwHandle ctxAnonAdmin "/admin/secret" mlo b).status = 403 ∧
       (Gateway.fwHandle ctxAnonAdmin "/admin/secret" mlo b).blockReason
         = some "RBAC violation") := by
  refine ⟨fun ctx => ⟨checkRiskRule_risk_eq ctx, rfl⟩, by decide, by decide, by decide, ?_⟩
  intro mlo b
  have h1 : (Gateway.checkRiskRule ctxAnonAdmin).risk = 1 := by decide
  have hfr : (0.95 : ℚ) ≤ Gateway.finalRiskOf ctxAnonAdmin mlo := by
    unfold Gateway.finalRiskOf
    rw [h1]
    exact le_trans (by norm_num) (le_max_left _ _)
  have hrb : Gateway.checkRBAC ctxAnonAdmin.role "/admin/secret" = false := by decide
  refine ⟨hfr, ?_, ?_⟩ <;> rw [fwHandle_eq] <;> simp [hrb]

/-- Claim C8 (confirmed): the ML delegate fails open.  A thrown scorer call
(or a response body with both fields missing) yields `{ml_risk: 0,
ml_label: "normal"}`, and the whole pipeline result — status included — is
identical to the one obtained had the scorer answered zero risk. -/
theorem ml_fail_open_status_invariant (ctx : Gateway.Ctx) (fp msg : String)
    (b : BackendOutcome) :
    scoreWithML (MLOutcome.err msg) = { ml_risk := 0, ml_label := "normal" } ∧
    scoreWithML (MLOutcome.ok { ml_risk := none, ml_label := none })
      = { ml_risk := 0, ml_label := "normal" } ∧
    Gateway.fwHandle ctx fp (MLOutcome.err msg) b
      = Gateway.fwHandle ctx fp
          (MLOutcome.ok { ml_risk := some 0, ml_label := some "normal" }) b := by
  have h : scoreWithML (MLOutcome.err msg)
      = scoreWithML (MLOutcome.ok { ml_risk := some 0, ml_label := some "normal" }) := by
    simp [scoreWithML, jsOrQ, jsOrStr]
  refine ⟨rfl, rfl, ?_⟩
  unfold Gateway.fwHandle Gateway.fwEntry
  rw [h]

/-- Claim C9 (confirmed): the CSV export is the header row followed by one
row per entry, `"\n"`-joined; every `esc`-rendered field is wrapped in
double quotes; and unquoting an escaped field — in particular one holding a
comma and a double quote — restores the original string. -/
theorem csv_export_and_roundtrip :
    (∀ logs : List SIEM.Record,
      SIEM.logsToCSV logs
        = String.intercalate "\n"
            (String.intercalate "," SIEM.headers :: logs.map SIEM.rowOf)) ∧
    (∀ v : Option String, ∃ inner : List Char,
      (SIEM.esc v).data = '"' :: (inner ++ ['"'])) ∧
    (∀ s : String, ',' ∈ s.data → '"' ∈ s.data →
      SIEM.csvUnquote (SIEM.esc (some s)) = s) := by
  refine ⟨fun logs => rfl, ?_, ?_⟩
  · intro v
    cases v with
    | none => exact ⟨[], by decide⟩
    | some s =>
        refine ⟨SIEM.escQuotesL s.data, ?_⟩
        show (("\"" ++ String.mk (SIEM.escQuotesL s.data)) ++ "\"").data = _
        rw [string_data_append, string_data_append]
        simp
  · intro s _ _
    exact csvUnquote_esc s

/-- Witness for `csv_export_and_roundtrip`: the field `a,"b` holds a comma
and a double quote and survives the round trip. -/
theorem csv_export_and_roundtrip_witness :
    SIEM.csvUnquote (SIEM.esc (some "a,\"b")) = "a,\"b" :=
  csv_export_and_roundtrip.2.2 "a,\"b" (by decide) (by decide)

/-- Claim C10 (confirmed): every audit entry appended by the `/fw` pipeline
stores `decision.allow = rbacAllowed && finalRisk < 0.95` — the negation of
the 403 condition — and the stored flag is `true` exactly when the gateway
proceeds to forward the request. -/
theorem audit_allow_consistency (ctx : Gateway.Ctx) (fp : String) (mlo : MLOutcome)
    (b : BackendOutcome) (e : Gateway.Entry)
    (he : e ∈ (Gateway.fwHandle ctx fp mlo b).newEntries) :
    e.decision.allow
      = (Gateway.checkRBAC ctx.role fp && decide (Gateway.finalRiskOf ctx mlo < 0.95)) ∧
    (e.decision.allow = true ↔ (Gateway.fwHandle ctx fp mlo b).forwarded = true) := by
  rw [fwHandle_eq] at he ⊢
  by_cases hcond :
      Gateway.checkRBAC ctx.role fp = false ∨ (0.95 : ℚ) ≤ Gateway.finalRiskOf ctx mlo
  · rw [if_pos hcond] at he ⊢
    simp only [List.mem_singleton] at he
    subst he
    have hallow : (Gateway.checkRBAC ctx.role fp
        && decide (Gateway.finalRiskOf ctx mlo < 0.95)) = false := by
      rcases hcond with hfalse | hge
      · simp [hfalse]
      · simp [not_lt.mpr hge]
    refine ⟨rfl, ?_, ?_⟩
    · intro h
      have h' : (Gateway.checkRBAC ctx.role fp
          && decide (Gateway.finalRiskOf ctx mlo < 0.95)) = true := h
      rw [hallow] at h'
      exact absurd h' (by decide)
    · intro h
      exact Bool.noConfusion h
  · obtain ⟨h1, h2⟩ := not_or.mp hcond
    have h1t : Gateway.checkRBAC ctx.role fp = true := by
      cases hcrb : Gateway.checkRBAC ctx.role fp
      · exact absurd hcrb h1
      · rfl
    have h2lt : Gateway.finalRiskOf ctx mlo < 0.95 := lt_of_not_le h2
    have hallow : (Gateway.checkRBAC ctx.role fp
        && decide (Gateway.finalRiskOf ctx mlo < 0.95)) = true := by
      simp [h1t, h2lt]
    rw [if_neg hcond] at he ⊢
    cases b with
    | ok st body =>
        simp only [List.mem_singleton] at he
        subst he
        exact ⟨rfl, fun _ => rfl, fun _ => hallow⟩
    | err m =>
        simp only [List.mem_cons, List.mem_singleton, List.not_mem_nil, or_false] at he
        rcases he with he | he
        · subst he
          exact ⟨rfl, fun _ => rfl, fun _ => hallow⟩
        · subst he
          exact ⟨rfl, fun _ => rfl, fun _ => hallow⟩

unseal Rat.add Rat.ofScientific in
/-- Witness for `audit_allow_consistency` at the allowed sample request:
the single appended entry stores `allow = true` and the request is
forwarded. -/
theorem audit_allow_consistency_witness :
    (Gateway.fwEntry ctxAllowed "/info" (MLOutcome.err "down")).decision.allow
      = (Gateway.checkRBAC ctxAllowed.role "/info"
          && decide (Gateway.finalRiskOf ctxAllowed (MLOutcome.err "down") < 0.95)) ∧
    ((Gateway.fwEntry ctxAllowed "/info" (MLOutcome.err "down")).decision.allow = true ↔
      (Gateway.fwHandle ctxAllowed "/info" (MLOutcome.err "down")
          (BackendOutcome.ok 200 "ok")).forwarded = true) :=
  audit_allow_consistency ctxAllowed "/info" (MLOutcome.err "down")
    (BackendOutcome.ok 200 "ok") (Gateway.fwEntry ctxAllowed "/info" (MLOutcome.err "down"))
    (by decide)
